import Mathlib

/-!
Shallow embedding of the buddy-api booking lifecycle and sitter rating
aggregation subsystem (app/api/v1/endpoints/bookings.py,
app/api/v1/endpoints/reviews.py, app/schemas/booking.py,
app/schemas/review.py, app/schemas/profile.py, and the sitter profile
document written by register_user in app/api/v1/endpoints/auth.py).

Modelling conventions:
* Mongo documents become Lean structures; a field that the code may find
  absent, null, or set is `Option (Option _)` (`none` = absent,
  `some none` = null, `some (some v)` = value) when the code distinguishes
  absent from null (Python `dict.get(k, d)` returns the stored `None` for a
  present-null field, not the default `d`), and plain `Option _` when the
  code treats absent and null alike.
* Monetary values and ratings are exact rationals; Python `round(x, n)`
  (round-half-to-even) is modelled exactly on rationals.  All concrete
  values appearing in theorems below are dyadically exact, where float and
  rational rounding agree.
* Each endpoint handler is a function from a database state (plus the
  authenticated user id and the request body) to a result together with
  the successor state.  A Python exception that escapes the handler's
  `try` block after some writes already happened is modelled as an
  `internalError` result paired with the state containing those writes.
* Calendar dates are day numbers (ℤ); times of day are minutes (ℤ).
  Timestamps the code writes as `None` ("will be set ... by MongoDB",
  which `$set` of a null does not do) are `none`.
-/

namespace BuddyApi

/-- `BookingStatus` enum from app/schemas/booking.py. -/
inductive BookingStatus
  | pending
  | confirmed
  | completed
  | cancelled
  | rejected
deriving DecidableEq, Repr, Fintype

/-- Error taxonomy of the handlers (HTTP detail strings in the source). -/
inductive ApiError
  | validationError      -- pydantic: end_date must be after start_date
  | ownerMismatch        -- 400 "Owner ID must match current user ID"
  | notFound             -- 404
  | forbidden            -- 403 "Not enough permissions" / wrong owner
  | invalidState         -- 400 "Can only review completed bookings"
  | sitterMismatch       -- 400 "Sitter ID must match booking sitter ID"
  | duplicateReview      -- 400 "Review already exists for this booking"
  | invalidTransition    -- 400 "Invalid status transition from .. to .."
  | invalidStateForUpdate -- 400 "Cannot update booking details after it has been confirmed"
  | invalidPet           -- 400 pet missing / not owned / bad id
  | internalError        -- 500 (an uncaught exception inside the try block)
deriving DecidableEq, Repr

/-- Python `round` to an integer: round half to even (used by `round(x, n)`). -/
def roundHalfEven (q : ℚ) : ℤ :=
  let f := ⌊q⌋
  if q - f < 1/2 then f
  else if 1/2 < q - f then f + 1
  else if f % 2 = 0 then f else f + 1

/-- Python `round(x, 1)` on exact rationals. -/
def round1 (q : ℚ) : ℚ := (roundHalfEven (q * 10) : ℚ) / 10

/-- Python `round(x, 2)` on exact rationals. -/
def round2 (q : ℚ) : ℚ := (roundHalfEven (q * 100) : ℚ) / 100

/-- Evaluation rule for `roundHalfEven` strictly below the midpoint. -/
theorem roundHalfEven_eq_low {q : ℚ} {k : ℤ} (h1 : (k : ℚ) ≤ q)
    (h2 : q - k < 1/2) : roundHalfEven q = k := by
  have hf : ⌊q⌋ = k := Int.floor_eq_iff.mpr ⟨h1, by linarith⟩
  unfold roundHalfEven
  simp only [hf]
  rw [if_pos h2]

/-- Evaluation rule for `roundHalfEven` strictly above the midpoint. -/
theorem roundHalfEven_eq_high {q : ℚ} {k : ℤ} (h1 : (1 : ℚ)/2 < q - k)
    (h2 : q < k + 1) : roundHalfEven q = k + 1 := by
  have hf : ⌊q⌋ = k := Int.floor_eq_iff.mpr ⟨by linarith, h2⟩
  unfold roundHalfEven
  simp only [hf]
  rw [if_neg (by linarith), if_pos h1]

/-- Evaluate `round1` when `q*10` sits strictly below its midpoint. -/
theorem round1_eq_low (q : ℚ) (k : ℤ) (h1 : (k : ℚ) ≤ q * 10)
    (h2 : q * 10 - k < 1/2) : round1 q = (k : ℚ) / 10 := by
  rw [round1, roundHalfEven_eq_low h1 h2]

/-- Evaluate `round1` when `q*10` sits strictly above its midpoint. -/
theorem round1_eq_high (q : ℚ) (k : ℤ) (h1 : (1 : ℚ)/2 < q * 10 - k)
    (h2 : q * 10 < k + 1) : round1 q = ((k + 1 : ℤ) : ℚ) / 10 := by
  rw [round1, roundHalfEven_eq_high h1 h2]

/-- Evaluate `round2` when `q*100` sits strictly below its midpoint. -/
theorem round2_eq_low (q : ℚ) (k : ℤ) (h1 : (k : ℚ) ≤ q * 100)
    (h2 : q * 100 - k < 1/2) : round2 q = (k : ℚ) / 100 := by
  rw [round2, roundHalfEven_eq_low h1 h2]

/-- A profile document (collection `profiles`).  `rating` distinguishes an
absent field (`none`), a stored null (`some none`) and a stored number
(`some (some v)`), because `sitter.get("rating", 0)` in reviews.py returns
the stored `None` — not `0` — when the field is present and null. -/
structure ProfileDoc where
  user_id : String
  user_type : String
  hourly_rate : Option ℚ := none
  rating : Option (Option ℚ) := none
  rating_count : Option ℕ := none
  updated_at : Option ℤ := none
deriving DecidableEq, Repr

/-- The profile document `register_user` (app/api/v1/endpoints/auth.py)
inserts for a user with `user_type == "sitter"`: `rating` is explicitly
null and `rating_count` is 0. -/
def freshSitterProfile (uid : String) : ProfileDoc :=
  { user_id := uid
    user_type := "sitter"
    hourly_rate := none
    rating := some none
    rating_count := some 0 }

/-- A booking document (collection `bookings`), fields per
`BookingCreate`/`BookingInDBBase` in app/schemas/booking.py.
`updated_at = none` covers both an absent field and a stored null: the
code only ever writes null there and the `Booking` response schema maps
both to `None`. -/
structure BookingDoc where
  owner_id : String
  sitter_id : String
  pet_ids : List String
  service_type : String
  start_date : ℤ
  end_date : ℤ
  start_time : Option ℤ := none
  end_time : Option ℤ := none
  notes : Option String := none
  status : BookingStatus
  total_price : Option ℚ := none
  updated_at : Option ℤ := none
deriving DecidableEq, Repr

/-- A review document (collection `reviews`), per app/schemas/review.py. -/
structure ReviewDoc where
  booking_id : String
  owner_id : String
  sitter_id : String
  rating : ℤ
  comment : Option String := none
  updated_at : Option ℤ := none
deriving DecidableEq, Repr

/-- The database state the booking/review handlers read and write.
`pets` maps a pet id to its `owner_id` (the only pet field the handlers
consult). -/
structure DB where
  bookings : List (String × BookingDoc)
  reviews : List (String × ReviewDoc)
  profiles : List ProfileDoc
  pets : List (String × String)
deriving DecidableEq, Repr

/-- `db.bookings.find_one({"_id": id})`. -/
def findBooking (db : DB) (id : String) : Option BookingDoc :=
  (db.bookings.find? (·.1 == id)).map (·.2)

/-- `db.reviews.find_one({"_id": id})`. -/
def findReviewById (db : DB) (id : String) : Option ReviewDoc :=
  (db.reviews.find? (·.1 == id)).map (·.2)

/-- `db.reviews.find_one({"booking_id": bid})`. -/
def findReviewByBooking (db : DB) (bid : String) : Option ReviewDoc :=
  (db.reviews.find? (·.2.booking_id == bid)).map (·.2)

/-- `db.profiles.find_one({"user_id": uid})` (reviews.py uses no
`user_type` filter). -/
def findProfile (db : DB) (uid : String) : Option ProfileDoc :=
  db.profiles.find? (·.user_id == uid)

/-- `db.profiles.find_one({"user_id": uid, "user_type": "sitter"})`
(bookings.py). -/
def findSitterProfile (db : DB) (uid : String) : Option ProfileDoc :=
  db.profiles.find? (fun p => p.user_id == uid && p.user_type == "sitter")

/-- `db.pets.find_one({"_id": pid})`, projected to its owner id. -/
def findPet (db : DB) (pid : String) : Option String :=
  (db.pets.find? (·.1 == pid)).map (·.2)

/-- `update_one({"user_id": uid}, {"$set": ...})` on `profiles`:
rewrite the first matching document. -/
def updateProfileWith (ps : List ProfileDoc) (uid : String)
    (f : ProfileDoc → ProfileDoc) : List ProfileDoc :=
  match ps with
  | [] => []
  | p :: rest =>
    if p.user_id == uid then f p :: rest else p :: updateProfileWith rest uid f

/-- `update_one({"_id": k}, {"$set": ...})` on a keyed collection:
replace the first document with that key. -/
def setFirst {α : Type} (l : List (String × α)) (k : String) (v : α) :
    List (String × α) :=
  match l with
  | [] => []
  | (k', x) :: rest =>
    if k' == k then (k', v) :: rest else (k', x) :: setFirst rest k v

/-- Outcome of one inlined sitter-aggregate block in reviews.py:
the code either performs no `profiles.update_one` call (`skip`), writes a
new `(rating, rating_count)` pair (`write`), or raises a `TypeError`
(`crash`) because the stored `rating` is null and Python evaluates
`None * count`. -/
inductive AggOutcome
  | crash
  | skip
  | write (rf : Option (Option ℚ)) (cf : Option ℕ)
deriving DecidableEq, Repr

/-- The aggregate block of `create_review` (reviews.py): `current_rating =
sitter.get("rating", 0)`; `current_count = sitter.get("rating_count", 0)`;
`new_count = current_count + 1`; `new_rating = ((current_rating *
current_count) + rating) / new_count`; write `round(new_rating, 1)` and
`new_count`.  A present-null `rating` makes `current_rating * current_count`
a `TypeError`. -/
def ratingAdd (rf : Option (Option ℚ)) (cf : Option ℕ) (r : ℤ) : AggOutcome :=
  match rf with
  | some none => .crash
  | _ =>
    let cur : ℚ := match rf with | some (some v) => v | _ => 0
    let cnt : ℕ := cf.getD 0
    let newCount : ℕ := cnt + 1
    let newRating : ℚ := (cur * (cnt : ℚ) + (r : ℚ)) / (newCount : ℚ)
    .write (some (some (round1 newRating))) (some newCount)

/-- The aggregate block of `update_review` (reviews.py), reached only when
the new rating differs from the stored one: if `current_count > 0`, write
`round((current_rating*current_count - old + new) / current_count, 1)`
leaving the count untouched; otherwise perform no write.  A present-null
`rating` with a positive count is a `TypeError`. -/
def ratingEdit (rf : Option (Option ℚ)) (cf : Option ℕ) (oldR newR : ℤ) :
    AggOutcome :=
  let cnt : ℕ := cf.getD 0
  if 0 < cnt then
    match rf with
    | some none => .crash
    | _ =>
      let cur : ℚ := match rf with | some (some v) => v | _ => 0
      let total : ℚ := cur * (cnt : ℚ) - (oldR : ℚ) + (newR : ℚ)
      .write (some (some (round1 (total / (cnt : ℚ))))) cf
  else .skip

/-- The aggregate block of `delete_review` (reviews.py): with
`current_count > 1`, write `round((current_rating*current_count - removed)
/ (current_count - 1), 1)` and `current_count - 1`; with
`current_count == 1`, reset to (null, 0); otherwise perform no write. -/
def ratingRemove (rf : Option (Option ℚ)) (cf : Option ℕ) (r : ℤ) :
    AggOutcome :=
  let cnt : ℕ := cf.getD 0
  if 1 < cnt then
    match rf with
    | some none => .crash
    | _ =>
      let cur : ℚ := match rf with | some (some v) => v | _ => 0
      let total : ℚ := cur * (cnt : ℚ) - (r : ℚ)
      .write (some (some (round1 (total / ((cnt - 1 : ℕ) : ℚ))))) (some (cnt - 1))
  else if cnt = 1 then .write (some none) (some 0)
  else .skip

/-- Apply an `AggOutcome` to the stored `(rating, rating_count)` pair of a
profile document. -/
def applyAgg (p : ProfileDoc) (o : AggOutcome) : ProfileDoc :=
  match o with
  | .write rf cf => { p with rating := rf, rating_count := cf, updated_at := none }
  | _ => p

/-- Request body of `POST /bookings` (`BookingCreate`,
app/schemas/booking.py — it inherits `status` and `total_price` from
`BookingBase`, with defaults). -/
structure BookingCreateIn where
  owner_id : String
  sitter_id : String
  pet_ids : List String
  service_type : String
  start_date : ℤ
  end_date : ℤ
  start_time : Option ℤ := none
  end_time : Option ℤ := none
  notes : Option String := none
  status : BookingStatus := .pending
  total_price : Option ℚ := none
deriving DecidableEq, Repr

/-- Python truthiness of `sitter.get("hourly_rate")`: absent and null are
both `none` here; a stored `0` is falsy as well. -/
def rateTruthy : Option ℚ → Bool
  | none => false
  | some r => decide (r ≠ 0)

/-- The total-price block of `create_booking` (bookings.py lines 54-75),
returning the `total_price` entry of the inserted document:
`total_price = None`; if the rate is truthy, compute either
`hours * rate` (both times given; `hours = (end_datetime -
start_datetime).total_seconds() / 3600`) or `days * 8 * rate`; then
`if total_price:` replace the request's own `total_price` field with the
rounded value — a computed price of 0 (or an untruthy rate) leaves the
caller-supplied `total_price` (default null) in place. -/
def computeTotalPrice (hourly_rate : Option ℚ) (inp : BookingCreateIn) : Option ℚ :=
  let computed : Option ℚ :=
    if rateTruthy hourly_rate then
      let r : ℚ := hourly_rate.getD 0
      match inp.start_time, inp.end_time with
      | some st, some et =>
        some (((((inp.end_date - inp.start_date) * 1440 + et - st : ℤ) : ℚ) / 60) * r)
      | _, _ =>
        some (((inp.end_date - inp.start_date + 1 : ℤ) : ℚ) * 8 * r)
    else none
  match computed with
  | some v => if v ≠ 0 then some (round2 v) else inp.total_price
  | none => inp.total_price

/-- `create_booking` (bookings.py).  `newId` stands for the id the store
assigns.  The `end_date >= start_date` check is the pydantic validator on
`BookingBase`; the handler itself then checks owner match, the sitter
profile, pet existence/ownership, computes the price and inserts. -/
def create_booking (db : DB) (uid : String) (inp : BookingCreateIn)
    (newId : String) : Except ApiError BookingDoc × DB :=
  if inp.end_date < inp.start_date then (.error .validationError, db)
  else if inp.owner_id ≠ uid then (.error .ownerMismatch, db)
  else
    match findSitterProfile db inp.sitter_id with
    | none => (.error .notFound, db)
    | some sitter =>
      if ¬ (inp.pet_ids.all fun pid => (findPet db pid).any (· == uid)) then
        (.error .invalidPet, db)
      else
        let doc : BookingDoc :=
          { owner_id := inp.owner_id
            sitter_id := inp.sitter_id
            pet_ids := inp.pet_ids
            service_type := inp.service_type
            start_date := inp.start_date
            end_date := inp.end_date
            start_time := inp.start_time
            end_time := inp.end_time
            notes := inp.notes
            status := inp.status
            total_price := computeTotalPrice sitter.hourly_rate inp
            updated_at := none }
        (.ok doc, { db with bookings := db.bookings ++ [(newId, doc)] })

/-- Request body of `PUT /bookings/{id}` (`BookingUpdate`,
app/schemas/booking.py: every field optional; `exclude_unset=True` makes
an omitted field `none`). -/
structure BookingUpd where
  service_type : Option String := none
  start_date : Option ℤ := none
  end_date : Option ℤ := none
  start_time : Option ℤ := none
  end_time : Option ℤ := none
  notes : Option String := none
  status : Option BookingStatus := none
  total_price : Option ℚ := none
  pet_ids : Option (List String) := none
deriving DecidableEq, Repr

/-- The status-transition condition of `update_booking` (bookings.py lines
231-250): owner may cancel a pending or confirmed booking; sitter may
confirm or reject a pending one and complete a confirmed one. -/
def statusChangeAllowed (isOwner isSitter : Bool) (cur new : BookingStatus) : Bool :=
  (isOwner && new == .cancelled && (cur == .pending || cur == .confirmed)) ||
  (isSitter && new == .confirmed && cur == .pending) ||
  (isSitter && new == .rejected && cur == .pending) ||
  (isSitter && new == .completed && cur == .confirmed)

/-- `any(k in update_data for k in ["start_date", "end_date", "start_time",
"end_time", "pet_ids"])`. -/
def detailFieldPresent (u : BookingUpd) : Bool :=
  u.start_date.isSome || u.end_date.isSome || u.start_time.isSome ||
  u.end_time.isSome || u.pet_ids.isSome

/-- `$set` of the update body onto a booking document; the handler adds
`updated_at = None` ("will be set to current time by MongoDB", which a
`$set` of null does not do). -/
def applyBookingUpd (b : BookingDoc) (u : BookingUpd) : BookingDoc :=
  { b with
    service_type := u.service_type.getD b.service_type
    start_date := u.start_date.getD b.start_date
    end_date := u.end_date.getD b.end_date
    start_time := match u.start_time with | some t => some t | none => b.start_time
    end_time := match u.end_time with | some t => some t | none => b.end_time
    notes := match u.notes with | some s => some s | none => b.notes
    status := u.status.getD b.status
    total_price := match u.total_price with | some p => some p | none => b.total_price
    pet_ids := u.pet_ids.getD b.pet_ids
    updated_at := none }

/-- `update_booking` (bookings.py lines 195-295): find the booking, check
the caller is a participant, validate a requested status change against
the transition table, reject owner detail updates outside PENDING (the
guard is `is_owner and not is_sitter and status != "pending" and any(...)`),
re-validate pet ownership when the owner resets `pet_ids`, then `$set` the
provided fields. -/
def update_booking (db : DB) (uid : String) (bookingId : String)
    (u : BookingUpd) : Except ApiError BookingDoc × DB :=
  match findBooking db bookingId with
  | none => (.error .notFound, db)
  | some b =>
    let isOwner := b.owner_id == uid
    let isSitter := b.sitter_id == uid
    if ¬ (isOwner || isSitter) then (.error .forbidden, db)
    else if (match u.status with
             | some ns => ! statusChangeAllowed isOwner isSitter b.status ns
             | none => false) then (.error .invalidTransition, db)
    else if isOwner && !isSitter && !(b.status == .pending) && detailFieldPresent u then
      (.error .invalidStateForUpdate, db)
    else if (match u.pet_ids with
             | some pids => isOwner && !(pids.all fun pid => (findPet db pid).any (· == uid))
             | none => false) then (.error .invalidPet, db)
    else
      let b' := applyBookingUpd b u
      (.ok b', { db with bookings := setFirst db.bookings bookingId b' })

/-- Request body of `POST /reviews` (`ReviewCreate`, app/schemas/review.py). -/
structure ReviewCreateIn where
  booking_id : String
  owner_id : String
  sitter_id : String
  rating : ℤ
  comment : Option String := none
deriving DecidableEq, Repr

/-- The review document `create_review` inserts (`review_in.dict()` plus a
null `created_at`). -/
def mkReview (inp : ReviewCreateIn) : ReviewDoc :=
  { booking_id := inp.booking_id
    owner_id := inp.owner_id
    sitter_id := inp.sitter_id
    rating := inp.rating
    comment := inp.comment }

/-- `create_review` (reviews.py lines 13-113): owner match, booking
exists / belongs to caller / is completed, sitter matches, no duplicate
review; then the review is inserted and the sitter aggregate updated.
When the aggregate block raises (stored rating is null), the surrounding
`except Exception` turns it into a 500 — with the review already
inserted. -/
def create_review (db : DB) (uid : String) (inp : ReviewCreateIn)
    (newId : String) : Except ApiError ReviewDoc × DB :=
  if inp.owner_id ≠ uid then (.error .ownerMismatch, db)
  else
    match findBooking db inp.booking_id with
    | none => (.error .notFound, db)
    | some b =>
      if b.owner_id ≠ uid then (.error .forbidden, db)
      else if b.status ≠ .completed then (.error .invalidState, db)
      else if inp.sitter_id ≠ b.sitter_id then (.error .sitterMismatch, db)
      else if (findReviewByBooking db inp.booking_id).isSome then
        (.error .duplicateReview, db)
      else
        let rv : ReviewDoc := mkReview inp
        let db1 : DB := { db with reviews := db.reviews ++ [(newId, rv)] }
        match findProfile db1 inp.sitter_id with
        | none => (.ok rv, db1)
        | some p =>
          match ratingAdd p.rating p.rating_count inp.rating with
          | .crash => (.error .internalError, db1)
          | o => (.ok rv,
              { db1 with profiles := updateProfileWith db1.profiles inp.sitter_id (applyAgg · o) })

/-- Request body of `PUT /reviews/{id}` (`ReviewUpdate`). -/
structure ReviewUpdateIn where
  rating : Option ℤ := none
  comment : Option String := none
deriving DecidableEq, Repr

/-- `update_review` (reviews.py lines 203-284): find the review, check the
caller owns it, `$set` the provided fields, then — only when a rating was
provided and differs from the stored one — run the aggregate edit block.
A crash there surfaces as a 500 with the review already updated. -/
def update_review (db : DB) (uid : String) (reviewId : String)
    (upd : ReviewUpdateIn) : Except ApiError ReviewDoc × DB :=
  match findReviewById db reviewId with
  | none => (.error .notFound, db)
  | some r =>
    if r.owner_id ≠ uid then (.error .forbidden, db)
    else
      let r' : ReviewDoc :=
        { r with
          rating := upd.rating.getD r.rating
          comment := match upd.comment with | some c => some c | none => r.comment
          updated_at := none }
      let db1 : DB := { db with reviews := setFirst db.reviews reviewId r' }
      match upd.rating with
      | none => (.ok r', db1)
      | some nr =>
        if r.rating = nr then (.ok r', db1)
        else
          match findProfile db1 r.sitter_id with
          | none => (.ok r', db1)
          | some p =>
            match ratingEdit p.rating p.rating_count r.rating nr with
            | .crash => (.error .internalError, db1)
            | o => (.ok r',
                { db1 with profiles := updateProfileWith db1.profiles r.sitter_id (applyAgg · o) })

/-- `delete_review` (reviews.py lines 286-380): find the review, check the
caller owns it, delete it, then run the aggregate removal block
(decrement-or-reset). -/
def delete_review (db : DB) (uid : String) (reviewId : String) :
    Except ApiError ReviewDoc × DB :=
  match findReviewById db reviewId with
  | none => (.error .notFound, db)
  | some r =>
    if r.owner_id ≠ uid then (.error .forbidden, db)
    else
      let db1 : DB := { db with reviews := db.reviews.eraseP (·.1 == reviewId) }
      match findProfile db1 r.sitter_id with
      | none => (.ok r, db1)
      | some p =>
        match ratingRemove p.rating p.rating_count r.rating with
        | .crash => (.error .internalError, db1)
        | o => (.ok r,
            { db1 with profiles := updateProfileWith db1.profiles r.sitter_id (applyAgg · o) })

/-- One review mutation, viewed at the level of a single sitter's
aggregate: the rating of an added review, an old/new pair for an edited
one, the rating of a removed one. -/
inductive AggOp
  | add (r : ℤ)
  | edit (oldR newR : ℤ)
  | remove (r : ℤ)
deriving DecidableEq, Repr

/-- Read an `AggOutcome` back as the stored pair (`crash` aborts, `skip`
keeps the previous pair). -/
def aggInterp (s : Option (Option ℚ) × Option ℕ) :
    AggOutcome → Option (Option (Option ℚ) × Option ℕ)
  | .crash => none
  | .skip => some s
  | .write rf cf => some (rf, cf)

/-- Run one review mutation against a stored `(rating, rating_count)`
pair, exactly as the three handlers do (`edit` first applies the handlers'
`old_rating != new_rating` shortcut); `none` is the `TypeError` crash. -/
def runAggOp (s : Option (Option ℚ) × Option ℕ) (op : AggOp) :
    Option (Option (Option ℚ) × Option ℕ) :=
  match op with
  | .add r => aggInterp s (ratingAdd s.1 s.2 r)
  | .edit oldR newR =>
    if oldR = newR then some s else aggInterp s (ratingEdit s.1 s.2 oldR newR)
  | .remove r => aggInterp s (ratingRemove s.1 s.2 r)

/-- Run a sequence of review mutations against a stored aggregate. -/
def runAggOps : Option (Option ℚ) × Option ℕ → List AggOp →
    Option (Option (Option ℚ) × Option ℕ)
  | s, [] => some s
  | s, op :: rest =>
    match runAggOp s op with
    | some s' => runAggOps s' rest
    | none => none

/-- The reference value of spec §8's "recompute from scratch": the rounded
arithmetic mean and count over the surviving reviews' ratings (this follows
the spec's words; the code never recomputes). -/
def scratchAggregate (ratings : List ℤ) : Option ℚ × ℕ :=
  match ratings with
  | [] => (none, 0)
  | _ =>
    (some (round1 ((ratings.map fun r => (r : ℚ)).sum / (ratings.length : ℚ))),
     ratings.length)

/-! ## Concrete fixtures used by the theorems below -/

/-- A pending booking by owner `ow` with sitter `si` for pet `p1`. -/
def bkPending : BookingDoc :=
  { owner_id := "ow", sitter_id := "si", pet_ids := ["p1"],
    service_type := "pet_sitting", start_date := 0, end_date := 1,
    status := .pending }

def bkConfirmed : BookingDoc := { bkPending with status := .confirmed }

def bkCompleted : BookingDoc := { bkPending with status := .completed }

/-- One pending booking, no reviews or profiles. -/
def dbPending : DB :=
  { bookings := [("b1", bkPending)], reviews := [], profiles := [],
    pets := [("p1", "ow")] }

/-- One confirmed booking, no reviews or profiles. -/
def dbConfirmed : DB :=
  { bookings := [("b1", bkConfirmed)], reviews := [], profiles := [],
    pets := [("p1", "ow")] }

/-- A completed booking together with the sitter profile exactly as
`register_user` creates it (rating null, rating_count 0). -/
def dbFreshSitter : DB :=
  { bookings := [("b1", bkCompleted)], reviews := [],
    profiles := [freshSitterProfile "si"], pets := [("p1", "ow")] }

def reviewIn5 : ReviewCreateIn :=
  { booking_id := "b1", owner_id := "ow", sitter_id := "si", rating := 5 }

def reviewIn4 : ReviewCreateIn := { reviewIn5 with rating := 4 }

/-- The sole review of sitter `si`. -/
def rvSole : ReviewDoc :=
  { booking_id := "b1", owner_id := "ow", sitter_id := "si", rating := 4 }

/-- Sitter profile whose aggregate holds exactly that one review. -/
def profOneReview : ProfileDoc :=
  { user_id := "si", user_type := "sitter", rating := some (some 4),
    rating_count := some 1 }

def dbOneReview : DB :=
  { bookings := [], reviews := [("r1", rvSole)], profiles := [profOneReview],
    pets := [] }

/-- `profOneReview` after the count==1 reset of `delete_review`. -/
def profReset : ProfileDoc :=
  { profOneReview with
      rating := some none, rating_count := some 0, updated_at := none }

/-- Booking request: one calendar day, no times. -/
def inpDays : BookingCreateIn :=
  { owner_id := "ow", sitter_id := "si", pet_ids := ["p1"],
    service_type := "pet_sitting", start_date := 0, end_date := 0 }

/-- Same day, 09:00 to 11:30. -/
def inpTimes : BookingCreateIn :=
  { inpDays with start_time := some 540, end_time := some 690 }

/-- Same day, 09:00 to 09:00: a zero-hour span. -/
def inpZeroSpan : BookingCreateIn :=
  { inpDays with start_time := some 540, end_time := some 540 }

/-- Sitter profile with hourly rate 10. -/
def profRate10 : ProfileDoc :=
  { user_id := "si", user_type := "sitter", hourly_rate := some 10 }

def dbRate10 : DB :=
  { bookings := [], reviews := [], profiles := [profRate10],
    pets := [("p1", "ow")] }

/-- Detail-only update bodies. -/
def updStartDate : BookingUpd := { start_date := some 7 }

def updEndDate : BookingUpd := { end_date := some 9 }

/-- A combined update: status change, detail change and a caller-chosen
total_price in one request. -/
def updPriced : BookingUpd :=
  { status := some .cancelled, start_date := some 3, total_price := some 999 }

/-- The operation sequence of the C8 counterexample: three adds, then the
first review is edited 1→2→3→4→5. -/
def driftOps : List AggOp :=
  [.add 1, .add 1, .add 5, .edit 1 2, .edit 2 3, .edit 3 4, .edit 4 5]

def bkCancelled : BookingDoc := { bkPending with status := .cancelled }

def bkMoved : BookingDoc := { bkConfirmed with start_date := 7 }

/-- An entirely empty store. -/
def dbEmpty : DB := { bookings := [], reviews := [], profiles := [], pets := [] }

/-- A completed booking whose sitter has no profile document at all. -/
def dbNoProfile : DB :=
  { bookings := [("b1", bkCompleted)], reviews := [], profiles := [],
    pets := [("p1", "ow")] }

/-- A review whose sitter has no profile document. -/
def dbOrphanReview : DB :=
  { bookings := [], reviews := [("r1", rvSole)], profiles := [], pets := [] }

/-- `setFirst` really updates the entry `find?` selects: if a key is
present, looking it up after `setFirst` returns the new value. -/
theorem find?_setFirst {α : Type} (l : List (String × α)) (k : String) (v : α)
    (h : (l.find? (·.1 == k)).isSome = true) :
    ((setFirst l k v).find? (·.1 == k)).map (·.2) = some v := by
  induction l with
  | nil => simp [List.find?] at h
  | cons hd tl ih =>
    obtain ⟨k', x⟩ := hd
    by_cases hk : (k' == k) = true
    · simp [setFirst, hk, List.find?]
    · simp only [List.find?, hk] at h
      simp [setFirst, hk, List.find?, ih h]

/-! ## Claims -/

/-- C8 counterexample: after the operation sequence `driftOps` the
surviving reviews' ratings are [5, 1, 5] (the first review was edited
1→2→3→4→5), the stored aggregate is (3.5, 3), while recomputing the mean
from scratch gives 11/3, rounded 3.7.  The stored rating differs from the
recomputed one by 0.2 — more than the claimed 0.1 rounding tolerance,
whether the recomputed mean is taken exactly or rounded. -/
theorem c8_counterexample_rating_drift_exceeds_tolerance :
    runAggOps (none, none) driftOps = some (some (some (7/2)), some 3) ∧
    scratchAggregate [5, 1, 5] = (some (37/10), 3) ∧
    (1/10 : ℚ) < |(7/2 : ℚ) - 37/10| ∧ (1/10 : ℚ) < |(7/2 : ℚ) - 11/3| := by
  have t1 : runAggOp ((none, none) : Option (Option ℚ) × Option ℕ) (.add 1) =
      some (some (some 1), some 1) := by
    norm_num [runAggOp, aggInterp, ratingAdd]
    rw [round1_eq_low 1 10 (by norm_num) (by norm_num)]
    norm_num
  have t2 : runAggOp ((some (some 1), some 1) : Option (Option ℚ) × Option ℕ) (.add 1) =
      some (some (some 1), some 2) := by
    norm_num [runAggOp, aggInterp, ratingAdd]
    rw [round1_eq_low 1 10 (by norm_num) (by norm_num)]
    norm_num
  have t3 : runAggOp ((some (some 1), some 2) : Option (Option ℚ) × Option ℕ) (.add 5) =
      some (some (some (23/10)), some 3) := by
    norm_num [runAggOp, aggInterp, ratingAdd]
    rw [round1_eq_low (7/3) 23 (by norm_num) (by norm_num)]
    norm_num
  have t4 : runAggOp ((some (some (23/10)), some 3) : Option (Option ℚ) × Option ℕ) (.edit 1 2) =
      some (some (some (13/5)), some 3) := by
    norm_num [runAggOp, aggInterp, ratingEdit]
    rw [round1_eq_low (79/30) 26 (by norm_num) (by norm_num)]
    norm_num
  have t5 : runAggOp ((some (some (13/5)), some 3) : Option (Option ℚ) × Option ℕ) (.edit 2 3) =
      some (some (some (29/10)), some 3) := by
    norm_num [runAggOp, aggInterp, ratingEdit]
    rw [round1_eq_low (44/15) 29 (by norm_num) (by norm_num)]
    norm_num
  have t6 : runAggOp ((some (some (29/10)), some 3) : Option (Option ℚ) × Option ℕ) (.edit 3 4) =
      some (some (some (16/5)), some 3) := by
    norm_num [runAggOp, aggInterp, ratingEdit]
    rw [round1_eq_low (97/30) 32 (by norm_num) (by norm_num)]
    norm_num
  have t7 : runAggOp ((some (some (16/5)), some 3) : Option (Option ℚ) × Option ℕ) (.edit 4 5) =
      some (some (some (7/2)), some 3) := by
    norm_num [runAggOp, aggInterp, ratingEdit]
    rw [round1_eq_low (53/15) 35 (by norm_num) (by norm_num)]
    norm_num
  refine ⟨?_, ?_, ?_, ?_⟩
  · simp only [driftOps, runAggOps, t1, t2, t3, t4, t5, t6, t7]
  · have h : round1 (11/3) = 37/10 := by
      rw [round1_eq_high (11/3) 36 (by norm_num) (by norm_num)]
      norm_num
    simp only [scratchAggregate, List.map, List.sum_cons, List.sum_nil, List.length]
    norm_num [h]
  · rw [lt_abs]
    right
    norm_num
  · rw [lt_abs]
    right
    norm_num

/-- C8 (amended): adding ratings [5, 3, 4] in any order into an aggregate
with no stored rating yields rating 4.0 and count 3; the general
recompute-from-scratch equivalence within 0.1, however, does not hold (see
the counterexample), so only the order-independence part survives. -/
theorem c8_rating_add_order_independent :
    runAggOps (none, none) [.add 5, .add 3, .add 4] = some (some (some 4), some 3) ∧
    runAggOps (none, none) [.add 5, .add 4, .add 3] = some (some (some 4), some 3) ∧
    runAggOps (none, none) [.add 3, .add 5, .add 4] = some (some (some 4), some 3) ∧
    runAggOps (none, none) [.add 3, .add 4, .add 5] = some (some (some 4), some 3) ∧
    runAggOps (none, none) [.add 4, .add 5, .add 3] = some (some (some 4), some 3) ∧
    runAggOps (none, none) [.add 4, .add 3, .add 5] = some (some (some 4), some 3) := by
  have a5 : runAggOp ((none, none) : Option (Option ℚ) × Option ℕ) (.add 5) =
      some (some (some 5), some 1) := by
    norm_num [runAggOp, aggInterp, ratingAdd]
    rw [round1_eq_low 5 50 (by norm_num) (by norm_num)]
    norm_num
  have a3 : runAggOp ((none, none) : Option (Option ℚ) × Option ℕ) (.add 3) =
      some (some (some 3), some 1) := by
    norm_num [runAggOp, aggInterp, ratingAdd]
    rw [round1_eq_low 3 30 (by norm_num) (by norm_num)]
    norm_num
  have a4 : runAggOp ((none, none) : Option (Option ℚ) × Option ℕ) (.add 4) =
      some (some (some 4), some 1) := by
    norm_num [runAggOp, aggInterp, ratingAdd]
    rw [round1_eq_low 4 40 (by norm_num) (by norm_num)]
    norm_num
  have b53 : runAggOp ((some (some 5), some 1) : Option (Option ℚ) × Option ℕ) (.add 3) =
      some (some (some 4), some 2) := by
    norm_num [runAggOp, aggInterp, ratingAdd]
    rw [round1_eq_low 4 40 (by norm_num) (by norm_num)]
    norm_num
  have b54 : runAggOp ((some (some 5), some 1) : Option (Option ℚ) × Option ℕ) (.add 4) =
      some (some (some (9/2)), some 2) := by
    norm_num [runAggOp, aggInterp, ratingAdd]
    rw [round1_eq_low (9/2) 45 (by norm_num) (by norm_num)]
    norm_num
  have b35 : runAggOp ((some (some 3), some 1) : Option (Option ℚ) × Option ℕ) (.add 5) =
      some (some (some 4), some 2) := by
    norm_num [runAggOp, aggInterp, ratingAdd]
    rw [round1_eq_low 4 40 (by norm_num) (by norm_num)]
    norm_num
  have b34 : runAggOp ((some (some 3), some 1) : Option (Option ℚ) × Option ℕ) (.add 4) =
      some (some (some (7/2)), some 2) := by
    norm_num [runAggOp, aggInterp, ratingAdd]
    rw [round1_eq_low (7/2) 35 (by norm_num) (by norm_num)]
    norm_num
  have b45 : runAggOp ((some (some 4), some 1) : Option (Option ℚ) × Option ℕ) (.add 5) =
      some (some (some (9/2)), some 2) := by
    norm_num [runAggOp, aggInterp, ratingAdd]
    rw [round1_eq_low (9/2) 45 (by norm_num) (by norm_num)]
    norm_num
  have b43 : runAggOp ((some (some 4), some 1) : Option (Option ℚ) × Option ℕ) (.add 3) =
      some (some (some (7/2)), some 2) := by
    norm_num [runAggOp, aggInterp, ratingAdd]
    rw [round1_eq_low (7/2) 35 (by norm_num) (by norm_num)]
    norm_num
  have c44 : runAggOp ((some (some 4), some 2) : Option (Option ℚ) × Option ℕ) (.add 4) =
      some (some (some 4), some 3) := by
    norm_num [runAggOp, aggInterp, ratingAdd]
    rw [round1_eq_low 4 40 (by norm_num) (by norm_num)]
    norm_num
  have c923 : runAggOp ((some (some (9/2)), some 2) : Option (Option ℚ) × Option ℕ) (.add 3) =
      some (some (some 4), some 3) := by
    norm_num [runAggOp, aggInterp, ratingAdd]
    rw [round1_eq_low 4 40 (by norm_num) (by norm_num)]
    norm_num
  have c725 : runAggOp ((some (some (7/2)), some 2) : Option (Option ℚ) × Option ℕ) (.add 5) =
      some (some (some 4), some 3) := by
    norm_num [runAggOp, aggInterp, ratingAdd]
    rw [round1_eq_low 4 40 (by norm_num) (by norm_num)]
    norm_num
  refine ⟨?_, ?_, ?_, ?_, ?_, ?_⟩
  · simp only [runAggOps, a5, b53, c44]
  · simp only [runAggOps, a5, b54, c923]
  · simp only [runAggOps, a3, b35, c44]
  · simp only [runAggOps, a3, b34, c725]
  · simp only [runAggOps, a4, b45, c923]
  · simp only [runAggOps, a4, b43, c725]

/-- C3 (code bug): `apply_add` realises `count' = count + 1` and
`rating' = round(((rating_or_0 * count) + r) / count', 1)` when the stored
rating is a number or the field is absent — but a stored **null** rating
(exactly what `register_user` writes for every new sitter, and what
`delete_review`'s count==1 reset writes back) is not treated as 0: Python
evaluates `None * current_count`, a `TypeError`, so the endpoint answers
500 with the review already inserted and the aggregate never written. -/
theorem c3_apply_add_crashes_on_null_rating :
    (∀ (cf : Option ℕ) (r : ℤ), ratingAdd (some none) cf r = .crash) ∧
    (∀ (v : ℚ) (cnt : ℕ) (r : ℤ),
      ratingAdd (some (some v)) (some cnt) r =
        .write (some (some (round1 ((v * (cnt : ℚ) + (r : ℚ)) / ((cnt : ℚ) + 1)))))
          (some (cnt + 1))) ∧
    (∀ (cnt : ℕ) (r : ℤ),
      ratingAdd none (some cnt) r =
        .write (some (some (round1 ((r : ℚ) / ((cnt : ℚ) + 1))))) (some (cnt + 1))) ∧
    create_review dbFreshSitter "ow" reviewIn4 "r1" =
      (.error .internalError,
       { dbFreshSitter with reviews := [("r1", rvSole)] }) := by
  refine ⟨fun cf r => rfl, fun v cnt r => ?_, fun cnt r => ?_, rfl⟩
  · unfold ratingAdd
    have h : ((cnt + 1 : ℕ) : ℚ) = (cnt : ℚ) + 1 := by push_cast; ring
    simp only [Option.getD]
    rw [h]
  · unfold ratingAdd
    have h : ((cnt + 1 : ℕ) : ℚ) = (cnt : ℚ) + 1 := by push_cast; ring
    simp only [Option.getD]
    rw [h]
    norm_num

/-- C4: `apply_remove` — with `count > 1` the code writes
`round((rating*count - removed) / (count-1), 1)` and decrements the count;
with `count == 1` it resets the aggregate to (null, 0) — in particular
deleting the sole review of a sitter resets `(rating, rating_count)` to
(null, 0) — and with `count == 0` (or an absent count) it performs no
write. -/
theorem c4_apply_remove_spec :
    (∀ (v : ℚ) (cnt : ℕ) (r : ℤ), 1 < cnt →
      ratingRemove (some (some v)) (some cnt) r =
        .write (some (some (round1 ((v * (cnt : ℚ) - (r : ℚ)) / ((cnt : ℚ) - 1)))))
          (some (cnt - 1))) ∧
    (∀ (rf : Option (Option ℚ)) (r : ℤ),
      ratingRemove rf (some 1) r = .write (some none) (some 0)) ∧
    (∀ (rf : Option (Option ℚ)) (r : ℤ),
      ratingRemove rf (some 0) r = .skip ∧ ratingRemove rf none r = .skip) ∧
    delete_review dbOneReview "ow" "r1" =
      (.ok rvSole,
       { dbOneReview with reviews := [], profiles := [profReset] }) := by
  refine ⟨fun v cnt r h => ?_, fun rf r => rfl, fun rf r => ⟨rfl, rfl⟩, rfl⟩
  unfold ratingRemove
  simp only [Option.getD]
  rw [if_pos h, Nat.cast_sub (le_of_lt h), Nat.cast_one]

/-- Witness for C4: a concrete removal with count 2 (hypothesis `1 < 2`):
round((4*2 - 3)/1, 1) = 5.0 with count 1. -/
theorem c4_apply_remove_spec_witness :
    (1 : ℕ) < 2 ∧
    ratingRemove (some (some 4)) (some 2) 3 = .write (some (some 5)) (some 1) := by
  refine ⟨by norm_num, (c4_apply_remove_spec.1 4 2 3 (by norm_num)).trans ?_⟩
  norm_num
  rw [round1_eq_low 5 50 (by norm_num) (by norm_num)]
  norm_num

/-- C1 (code bug): the role-gated transition table is exactly as claimed —
`statusChangeAllowed` for a pure owner (resp. pure sitter) holds precisely
on the listed (from, to) pairs, a valid transition succeeds, and an
invalid one is rejected with InvalidTransition leaving the store
untouched.  But `updated_at` does NOT change on success: the handler
`$set`s it to null (its comment expects MongoDB to fill in the current
time, which a `$set` of null does not do), so on a booking whose
`updated_at` is already null/absent a successful owner cancellation leaves
`updated_at` null — unchanged — contradicting the claim. -/
theorem c1_transition_table_and_stale_updated_at :
    (∀ (isO isS : Bool) (cur nxt : BookingStatus),
      statusChangeAllowed isO isS cur nxt = true ↔
        ((isO = true ∧ nxt = .cancelled ∧ (cur = .pending ∨ cur = .confirmed)) ∨
         (isS = true ∧ nxt = .confirmed ∧ cur = .pending) ∨
         (isS = true ∧ nxt = .rejected ∧ cur = .pending) ∨
         (isS = true ∧ nxt = .completed ∧ cur = .confirmed))) ∧
    (update_booking dbPending "ow" "b1" { status := some .cancelled }).1 = .ok bkCancelled ∧
    (findBooking (update_booking dbPending "ow" "b1" { status := some .cancelled }).2 "b1").map
      (·.updated_at) = some none ∧
    (findBooking dbPending "b1").map (·.updated_at) = some none ∧
    update_booking dbPending "ow" "b1" { status := some .completed } =
      (.error .invalidTransition, dbPending) :=
  ⟨by decide, rfl, rfl, rfl, rfl⟩

/-- C2 (code bug): `register_user` stores every new sitter's profile with
`rating: null, rating_count: 0`, and `create_review`'s aggregate block
evaluates `None * current_count` — a `TypeError` — instead of treating the
null rating as 0.  The handler answers 500 with the review already
inserted and the aggregate untouched: afterwards sitter `si` has exactly
one non-deleted review while the stored aggregate still reads
`(null, 0)` — `rating_count` does not equal the number of non-deleted
reviews and the aggregate was not mutated alongside the create. -/
theorem c2_aggregate_invariant_broken_on_fresh_sitter :
    (create_review dbFreshSitter "ow" reviewIn5 "r1").1 = .error .internalError ∧
    ((create_review dbFreshSitter "ow" reviewIn5 "r1").2.reviews.filter
      (fun kv => kv.2.sitter_id == "si")).length = 1 ∧
    findProfile (create_review dbFreshSitter "ow" reviewIn5 "r1").2 "si" =
      some (freshSitterProfile "si") :=
  ⟨rfl, rfl, rfl⟩

/-- C6 counterexample: the guard in `update_booking` is
`is_owner and not is_sitter and status != "pending" and any(detail key)`,
so a **sitter** is never blocked: on a CONFIRMED booking the sitter
changes `start_date` and the request succeeds and is persisted, where the
claim requires an InvalidStateForUpdate failure for any actor other than
the owner (and for any booking that left PENDING). -/
theorem c6_counterexample_sitter_detail_update_succeeds :
    bkConfirmed.status ≠ .pending ∧
    bkConfirmed.sitter_id = "si" ∧ bkConfirmed.owner_id ≠ "si" ∧
    detailFieldPresent updStartDate = true ∧
    (update_booking dbConfirmed "si" "b1" updStartDate).1 = .ok bkMoved ∧
    (findBooking (update_booking dbConfirmed "si" "b1" updStartDate).2 "b1").map
      (·.start_date) = some 7 :=
  ⟨by decide, rfl, by decide, rfl, rfl, rfl⟩

/-- C6 (amended): a detail-field update (no status change) by the owner —
when the owner is not also the sitter — fails with InvalidStateForUpdate
once the booking has left PENDING, leaving the store unchanged; a
detail-field update by the sitter (who is not the owner) is not subject to
that check and succeeds with the fields `$set`, whatever the status; an
actor who is neither the owner nor the sitter fails with Forbidden (not
InvalidStateForUpdate), again leaving the store unchanged. -/
theorem c6_detail_update_amended :
    (∀ (db : DB) (uid bid : String) (u : BookingUpd) (b : BookingDoc),
      findBooking db bid = some b → b.owner_id = uid → b.sitter_id ≠ uid →
      b.status ≠ .pending → u.status = none → detailFieldPresent u = true →
      update_booking db uid bid u = (.error .invalidStateForUpdate, db)) ∧
    (∀ (db : DB) (uid bid : String) (u : BookingUpd) (b : BookingDoc),
      findBooking db bid = some b → b.sitter_id = uid → b.owner_id ≠ uid →
      u.status = none →
      (update_booking db uid bid u).1 = .ok (applyBookingUpd b u)) ∧
    (∀ (db : DB) (uid bid : String) (u : BookingUpd) (b : BookingDoc),
      findBooking db bid = some b → b.owner_id ≠ uid → b.sitter_id ≠ uid →
      update_booking db uid bid u = (.error .forbidden, db)) := by
  refine ⟨?_, ?_, ?_⟩
  · intro db uid bid u b hf ho hs hst hus hd
    subst ho
    simp [update_booking, hf, hus, hd, hs, hst]
  · intro db uid bid u b hf hs ho hus
    subst hs
    cases hup : u.pet_ids <;> simp [update_booking, hf, hus, ho, hup]
  · intro db uid bid u b hf ho hs
    simp [update_booking, hf, ho, hs]

/-- Witness for C6 (amended): on the same CONFIRMED booking, the owner's
detail update is rejected with InvalidStateForUpdate, the sitter's detail
update goes through, and a third party's update is rejected with
Forbidden. -/
theorem c6_detail_update_amended_witness :
    update_booking dbConfirmed "ow" "b1" updStartDate =
      (.error .invalidStateForUpdate, dbConfirmed) ∧
    (update_booking dbConfirmed "si" "b1" updEndDate).1 =
      .ok (applyBookingUpd bkConfirmed updEndDate) ∧
    update_booking dbConfirmed "zz" "b1" updStartDate =
      (.error .forbidden, dbConfirmed) :=
  ⟨c6_detail_update_amended.1 dbConfirmed "ow" "b1" updStartDate bkConfirmed rfl rfl
      (by decide) (by decide) rfl rfl,
   c6_detail_update_amended.2.1 dbConfirmed "si" "b1" updEndDate bkConfirmed rfl rfl
      (by decide) rfl,
   c6_detail_update_amended.2.2 dbConfirmed "zz" "b1" updStartDate bkConfirmed rfl
      (by decide) (by decide)⟩

/-- C7: `create_review` fails with NotFound when the booking is absent,
Forbidden when the booking's owner differs from the requesting owner,
InvalidState when the booking is not COMPLETED, SitterMismatch when the
request's sitter differs from the booking's, and DuplicateReview when a
review for that booking already exists — and in every failure case the
returned state is the input state: no review inserted, aggregate
untouched. -/
theorem c7_create_review_error_cases :
    ∀ (db : DB) (uid : String) (inp : ReviewCreateIn) (newId : String),
      inp.owner_id = uid →
      ((findBooking db inp.booking_id = none →
        create_review db uid inp newId = (.error .notFound, db)) ∧
       (∀ b : BookingDoc, findBooking db inp.booking_id = some b →
        ((b.owner_id ≠ uid →
          create_review db uid inp newId = (.error .forbidden, db)) ∧
         (b.owner_id = uid → b.status ≠ .completed →
          create_review db uid inp newId = (.error .invalidState, db)) ∧
         (b.owner_id = uid → b.status = .completed → inp.sitter_id ≠ b.sitter_id →
          create_review db uid inp newId = (.error .sitterMismatch, db)) ∧
         (b.owner_id = uid → b.status = .completed → inp.sitter_id = b.sitter_id →
          (findReviewByBooking db inp.booking_id).isSome = true →
          create_review db uid inp newId = (.error .duplicateReview, db))))) := by
  intro db uid inp newId ho
  constructor
  · intro hb
    simp [create_review, ho, hb]
  · intro b hb
    refine ⟨?_, ?_, ?_, ?_⟩
    · intro hbo
      simp [create_review, ho, hb, hbo]
    · intro hbo hst
      simp [create_review, ho, hb, hbo, hst]
    · intro hbo hst hsm
      simp [create_review, ho, hb, hbo, hst, hsm]
    · intro hbo hst hsm hdup
      simp [create_review, ho, hb, hbo, hst, hsm, hdup]

/-- Witness for C7: with an empty store the booking is absent and the
request fails with NotFound leaving the store empty. -/
theorem c7_create_review_error_cases_witness :
    create_review dbEmpty "ow" reviewIn5 "r1" = (.error .notFound, dbEmpty) :=
  (c7_create_review_error_cases dbEmpty "ow" reviewIn5 "r1" rfl).1 rfl

/-- C9: `update_booking` never recomputes `total_price`.  Whenever the
update succeeds, the persisted booking's `total_price` is the
caller-supplied value when the request carries one (written as-is,
unvalidated) and the stored creation-time value otherwise — the sitter's
rate and the dates are never consulted. -/
theorem c9_update_preserves_total_price :
    ∀ (db : DB) (uid bid : String) (u : BookingUpd) (b b' : BookingDoc) (db' : DB),
      findBooking db bid = some b →
      update_booking db uid bid u = (.ok b', db') →
      b'.total_price =
        (match u.total_price with | some p => some p | none => b.total_price) ∧
      findBooking db' bid = some b' := by
  intro db uid bid u b b' db2 hb hupd
  simp only [update_booking, hb] at hupd
  have hfind : ((db.bookings.find? (·.1 == bid)).isSome) = true := by
    simp only [findBooking] at hb
    cases h : db.bookings.find? (·.1 == bid) with
    | none => rw [h] at hb; simp at hb
    | some kv => rfl
  split at hupd
  · simp at hupd
  · split at hupd
    · simp at hupd
    · split at hupd
      · simp at hupd
      · split at hupd
        · simp at hupd
        · obtain ⟨h1, h2⟩ := Prod.mk.injEq .. ▸ hupd
          obtain rfl : applyBookingUpd b u = b' := by
            simpa using h1
          subst h2
          refine ⟨rfl, ?_⟩
          simpa [findBooking] using find?_setFirst db.bookings bid (applyBookingUpd b u) hfind

/-- Witness for C9: the owner cancels a PENDING booking, moves its start
date and writes `total_price := 999` in one request; the persisted booking
carries total_price 999. -/
theorem c9_update_preserves_total_price_witness :
    (applyBookingUpd bkPending updPriced).total_price = some 999 ∧
    findBooking (update_booking dbPending "ow" "b1" updPriced).2 "b1" =
      some (applyBookingUpd bkPending updPriced) := by
  have h := c9_update_preserves_total_price dbPending "ow" "b1" updPriced bkPending
    (applyBookingUpd bkPending updPriced) (update_booking dbPending "ow" "b1" updPriced).2
    rfl rfl
  exact ⟨h.1, h.2⟩

/-- C10: when no profile document exists for the review's sitter,
`create_review` and `delete_review` still report success and return the
inserted/deleted review, while the aggregate update is silently skipped:
the whole `profiles` collection — indeed everything except `reviews` — is
left as it was, and no error is raised. -/
theorem c10_missing_profile_silent_skip :
    (∀ (db : DB) (uid : String) (inp : ReviewCreateIn) (newId : String) (b : BookingDoc),
      inp.owner_id = uid →
      findBooking db inp.booking_id = some b →
      b.owner_id = uid → b.status = .completed → inp.sitter_id = b.sitter_id →
      findReviewByBooking db inp.booking_id = none →
      findProfile db inp.sitter_id = none →
      create_review db uid inp newId =
        (.ok (mkReview inp),
         { db with reviews := db.reviews ++ [(newId, mkReview inp)] })) ∧
    (∀ (db : DB) (uid rid : String) (r : ReviewDoc),
      findReviewById db rid = some r → r.owner_id = uid →
      findProfile db r.sitter_id = none →
      delete_review db uid rid =
        (.ok r, { db with reviews := db.reviews.eraseP (·.1 == rid) })) := by
  constructor
  · intro db uid inp newId b ho hb hbo hst hsm hdup hprof
    simp only [findProfile, hsm] at hprof
    simp [create_review, ho, hb, hbo, hst, hsm, hdup, findProfile, hprof]
  · intro db uid rid r hr hro hprof
    simp only [findProfile] at hprof
    simp [delete_review, hr, hro, findProfile, hprof]

/-- Witness for C10: creating a review for booking `b1` (completed, owner
`ow`, sitter `si`) with no `si` profile succeeds and only appends the
review; deleting the orphan review succeeds and only removes it. -/
theorem c10_missing_profile_silent_skip_witness :
    create_review dbNoProfile "ow" reviewIn5 "r1" =
      (.ok (mkReview reviewIn5),
       { dbNoProfile with reviews := [("r1", mkReview reviewIn5)] }) ∧
    delete_review dbOrphanReview "ow" "r1" =
      (.ok rvSole, { dbOrphanReview with reviews := [] }) :=
  ⟨c10_missing_profile_silent_skip.1 dbNoProfile "ow" reviewIn5 "r1" bkCompleted
      rfl rfl rfl rfl rfl rfl rfl,
   c10_missing_profile_silent_skip.2 dbOrphanReview "ow" "r1" rvSole rfl rfl rfl⟩

/-- C5 counterexample: the sitter's rate is 10 (configured and truthy),
both times are given with `start_time = end_time = 09:00` on one day, so
the computed price is 0·10 = 0 — but `if total_price:` is falsy on 0, so
the stored booking carries **no** price (`total_price` null), where the
claim requires the computed price 0.00 whenever the rate is configured. -/
theorem c5_counterexample_zero_duration_price_omitted :
    rateTruthy (some 10) = true ∧
    computeTotalPrice (some 10) inpZeroSpan = none ∧
    (create_booking dbRate10 "ow" inpZeroSpan "nb").1.toOption.map (·.total_price) =
      some none := by
  have hp : computeTotalPrice (some 10) inpZeroSpan = none := by
    norm_num [computeTotalPrice, rateTruthy, inpZeroSpan, inpDays]
  refine ⟨by norm_num [rateTruthy], hp, ?_⟩
  simp only [inpZeroSpan, inpDays] at hp
  simp [create_booking, dbRate10, profRate10, inpZeroSpan, inpDays, findSitterProfile,
        findPet, hp]
  exact ⟨_, rfl, rfl⟩

/-- C5 (amended): with a truthy hourly rate `r` and a valid date range,
the computed price is `hours * r` when both times are given (with
`hours = (end_datetime - start_datetime) / 1h`) and `days * 8 * r`
otherwise, rounded to 2 decimals — except that a computed price of
exactly 0 (reachable only in the timed branch, e.g. equal start and end
times) is not stored: the caller-supplied `total_price` field (default
null) is kept, exactly as when the sitter's rate is absent, null or 0.
Day-based prices are always stored.  Concretely, rate 10 for one day with
no times gives 80.00, and 09:00–11:30 at rate 10 gives 25.00. -/
theorem c5_price_computation_amended :
    (∀ (r : ℚ) (inp : BookingCreateIn), r ≠ 0 → inp.start_date ≤ inp.end_date →
      computeTotalPrice (some r) inp =
        match inp.start_time, inp.end_time with
        | some st, some et =>
          if (((inp.end_date - inp.start_date : ℤ) : ℚ) * 24 + ((et : ℚ) - (st : ℚ)) / 60) * r = 0 then
            inp.total_price
          else
            some (round2 ((((inp.end_date - inp.start_date : ℤ) : ℚ) * 24 + ((et : ℚ) - (st : ℚ)) / 60) * r))
        | _, _ => some (round2 (((inp.end_date - inp.start_date + 1 : ℤ) : ℚ) * 8 * r))) ∧
    (∀ (rate : Option ℚ) (inp : BookingCreateIn), rateTruthy rate = false →
      computeTotalPrice rate inp = inp.total_price) ∧
    computeTotalPrice (some 10) inpDays = some 80 ∧
    computeTotalPrice (some 10) inpTimes = some 25 := by
  refine ⟨?_, ?_, ?_, ?_⟩
  · intro r inp hr hd
    have ht : rateTruthy (some r) = true := by simp [rateTruthy, hr]
    have h1 : (0 : ℚ) < (inp.end_date : ℚ) - (inp.start_date : ℚ) + 1 := by
      have h0 : (0 : ℤ) < inp.end_date - inp.start_date + 1 := by omega
      exact_mod_cast h0
    rcases hst : inp.start_time with _ | st
    · rcases het : inp.end_time with _ | et
      · simp only [computeTotalPrice, ht, hst, het, eq_self_iff_true, if_true,
          Option.getD_some]
        simp [h1.ne', hr]
      · simp only [computeTotalPrice, ht, hst, het, eq_self_iff_true, if_true,
          Option.getD_some]
        simp [h1.ne', hr]
    · rcases het : inp.end_time with _ | et
      · simp only [computeTotalPrice, ht, hst, het, eq_self_iff_true, if_true,
          Option.getD_some]
        simp [h1.ne', hr]
      · have harg : ((((inp.end_date - inp.start_date) * 1440 + et - st : ℤ) : ℚ) / 60) * r
            = (((inp.end_date - inp.start_date : ℤ) : ℚ) * 24 + ((et : ℚ) - (st : ℚ)) / 60) * r := by
          push_cast
          ring
        simp only [computeTotalPrice, ht, hst, het, eq_self_iff_true, if_true,
          Option.getD_some]
        rw [harg]
        by_cases h0 :
            (((inp.end_date - inp.start_date : ℤ) : ℚ) * 24 + ((et : ℚ) - (st : ℚ)) / 60) * r = 0
        · rw [if_neg (not_not_intro h0), if_pos h0]
        · rw [if_pos h0, if_neg h0]
  · intro rate inp hrt
    simp [computeTotalPrice, hrt]
  · have h : round2 80 = 80 := by
      rw [round2_eq_low 80 8000 (by norm_num) (by norm_num)]
      norm_num
    norm_num [computeTotalPrice, rateTruthy, inpDays, h]
  · have h : round2 25 = 25 := by
      rw [round2_eq_low 25 2500 (by norm_num) (by norm_num)]
      norm_num
    norm_num [computeTotalPrice, rateTruthy, inpTimes, inpDays, h]

/-- Witness for C5 (amended), at rate 10 and the 09:00–11:30 one-day
request: both hypotheses hold and the price comes out as 25.00. -/
theorem c5_price_computation_amended_witness :
    (10 : ℚ) ≠ 0 ∧ inpTimes.start_date ≤ inpTimes.end_date ∧
    computeTotalPrice (some 10) inpTimes = some 25 := by
  refine ⟨by norm_num, by norm_num [inpTimes, inpDays], ?_⟩
  have h := c5_price_computation_amended.1 10 inpTimes (by norm_num)
    (by norm_num [inpTimes, inpDays])
  rw [h]
  have h25 : round2 25 = 25 := by
    rw [round2_eq_low 25 2500 (by norm_num) (by norm_num)]
    norm_num
  norm_num [inpTimes, inpDays, h25]

end BuddyApi

